import Mathlib

/-!
Verification of the medical X-ray analysis pipeline
(`api/medical_ai_pipeline.py`) against its natural-language design.

The Python code is shallowly embedded: dictionaries keyed by condition
names become insertion-ordered association lists `List (String × ℚ)`,
floating-point scores become rationals, and the external model calls
(MedCLIP / OpenCLIP / DenseNet forward passes, the remote report API,
Grad-CAM) become explicit oracle parameters describing what the external
call returned, or that it raised.  Exception-driven control flow is made
explicit: a tier that would raise is modelled as returning `none` and the
caller proceeds exactly as the `except:` clauses do.
-/

/-- Lookup in an insertion-ordered association list with a default, the
translation of Python's `d.get(k, default)` (and of `d[k]` at call sites
where the key is known to be present). -/
def dictGet (l : List (String × ℚ)) (k : String) (d : ℚ) : ℚ :=
  match l.find? (fun e => e.1 == k) with
  | some e => e.2
  | none => d

/-- Leftmost entry with maximal value among `e :: t`.  This is the
semantics of Python's `max(d, key=d.get)` on an insertion-ordered dict:
a later entry replaces the current best only when strictly greater, so
ties keep the first occurrence. -/
def maxEntryAux (e : String × ℚ) : List (String × ℚ) → String × ℚ
  | [] => e
  | f :: t =>
    let m := maxEntryAux f t
    if m.2 > e.2 then m else e

/-- Translation of `max(d, key=d.get)` as an optional entry (`none` mirrors the
`ValueError` Python raises on an empty dict). -/
def maxEntry : List (String × ℚ) → Option (String × ℚ)
  | [] => none
  | e :: t => some (maxEntryAux e t)

/-- Key of the leftmost maximal entry, Python's `max(d, key=d.get)`. -/
def maxKey (l : List (String × ℚ)) : String :=
  match maxEntry l with
  | some m => m.1
  | none => ""

/-- Maximum of a list of rationals (Python's `max(seq)`, with 0 for the
empty list that would raise in Python; never reached on that case). -/
def listMaxQ : List ℚ → ℚ
  | [] => 0
  | [x] => x
  | x :: y :: t => max x (listMaxQ (y :: t))

/-- Minimum of a list of rationals (`np.min`, 0 on the empty list). -/
def listMinQ : List ℚ → ℚ
  | [] => 0
  | [x] => x
  | x :: y :: t => min x (listMinQ (y :: t))

/-- Python's `max(d.values())`. -/
def maxVal (l : List (String × ℚ)) : ℚ :=
  listMaxQ (l.map Prod.snd)

/-- The invariant claimed for backend results: the overall confidence is
the maximum of the per-condition scores and the primary diagnosis is the
first condition (in score-dict insertion order, i.e. ConditionList order)
attaining that maximum. -/
def argmaxInvariant (scores : List (String × ℚ)) (primary : String) (overall : ℚ) : Prop :=
  overall = maxVal scores ∧
  scores.find? (fun e => decide (maxVal scores ≤ e.2)) = some (primary, overall)

/-- Does `hay` start with `needle`? (character-list level). -/
def startsWithSeq : List Char → List Char → Bool
  | [], _ => true
  | _ :: _, [] => false
  | n :: ns, h :: hs => n == h && startsWithSeq ns hs

/-- Does `hay` contain `needle` as a contiguous subsequence? -/
def containsSeq (needle : List Char) : List Char → Bool
  | [] => startsWithSeq needle []
  | h :: hs => startsWithSeq needle (h :: hs) || containsSeq needle hs

/-- Substring test on strings, used to state what a piece of generated
text does or does not mention. -/
def containsSub (hay needle : String) : Bool :=
  containsSeq needle.data hay.data

/-- Round half to even, the rounding used by Python's string formatting. -/
def roundHalfEven (q : ℚ) : ℤ :=
  let f := Int.floor q
  let frac := q - f
  if frac < 1/2 then f
  else if 1/2 < frac then f + 1
  else if f % 2 = 0 then f else f + 1

/-- Python's `f"{q:.1%}"` for the non-negative confidences that occur in
the pipeline: the value expressed in percent with one decimal digit. -/
def fmtPercent1 (q : ℚ) : String :=
  let n : ℕ := (roundHalfEven (q * 1000)).toNat
  toString (n / 10) ++ "." ++ toString (n % 10) ++ "%"

/-- A preprocessed image: the channel count of the tensor together with
the flattened pixel plane on which the pipeline's `np.mean` / `np.std` /
`np.min` / `np.max` statistics are computed. -/
structure PImage where
  channels : ℕ
  plane : List ℚ
deriving DecidableEq, Repr

/-- Translation of `np.mean` over the preprocessed image. -/
def brightness (img : PImage) : ℚ :=
  img.plane.sum / img.plane.length

/-- Square of `np.std` of the preprocessed image.  The source only ever
compares the standard deviation against non-negative thresholds `t`, and
`np.std(x) > t ↔ varianceQ x > t^2`, which keeps the embedding inside ℚ. -/
def varianceQ (img : PImage) : ℚ :=
  ((img.plane.map (fun v => (v - brightness img) ^ 2)).sum) / img.plane.length

/-- Result dictionary returned by a single analysis path
(`analyze_with_medclip`, `analyze_with_densenet`, `fallback_analysis`). -/
structure BackendResult where
  primary_diagnosis : String
  confidence_scores : List (String × ℚ)
  overall_confidence : ℚ
  model : String
  findings : List String := []
deriving DecidableEq, Repr

/-- The orchestrator's chosen diagnosis; `individual_models` is set only
by the ensemble path (`'clip'` and `'densenet'` constituents, in that
order). -/
structure Diagnosis where
  primary_diagnosis : String
  confidence_scores : List (String × ℚ)
  overall_confidence : ℚ
  model : String
  findings : List String := []
  individual_models : Option (BackendResult × BackendResult) := none
deriving DecidableEq, Repr

/-- A plain backend result viewed as the final diagnosis (the
single-model paths of `complete_analysis`). -/
def BackendResult.toDiagnosis (r : BackendResult) : Diagnosis :=
  { primary_diagnosis := r.primary_diagnosis
    confidence_scores := r.confidence_scores
    overall_confidence := r.overall_confidence
    model := r.model
    findings := r.findings
    individual_models := none }

/-- Record for `{'report': ..., 'generated_by': ..., 'timestamp': ...}`. -/
structure MedicalReport where
  report : String
  generated_by : String
  timestamp : String
deriving DecidableEq, Repr

/-- Record for `{'heatmap': ..., 'description': ...}`; `heatmap` is `none` when the
image is absent (`'heatmap': None`). -/
structure Heatmap where
  heatmap : Option String
  description : String
deriving DecidableEq, Repr

/-- Patient metadata; only these keys are ever named by the design. -/
structure PatientInfo where
  age : Option ℤ := none
  smoking : Option Bool := none
  diabetes : Option Bool := none
  hypertension : Option Bool := none
deriving DecidableEq, Repr

/-- Translation of `conditions_map.get(xray_type, conditions_map['chest'])`. -/
def get_medical_conditions (xray_type : String) : List String :=
  if xray_type = "chest" then
    ["Normal", "Pneumonia", "Pneumothorax", "Cardiomegaly",
     "Atelectasis", "Pleural Effusion", "Consolidation",
     "Pulmonary Edema", "Tuberculosis", "Lung Mass"]
  else if xray_type = "bone" then
    ["Normal", "Fracture", "Arthritis", "Osteoporosis",
     "Bone Lesion", "Joint Dislocation", "Bone Infection",
     "Tumor", "Degenerative Changes", "Trauma"]
  else if xray_type = "dental" then
    ["Normal", "Caries", "Periodontal Disease", "Root Canal",
     "Dental Implant", "Abscess", "Cyst", "Impacted Tooth",
     "Bone Loss", "Dental Restoration"]
  else if xray_type = "spine" then
    ["Normal", "Scoliosis", "Herniated Disc", "Spinal Fracture",
     "Degenerative Changes", "Spinal Stenosis", "Spondylolisthesis",
     "Spinal Tumor", "Infection", "Trauma"]
  else
    ["Normal", "Pneumonia", "Pneumothorax", "Cardiomegaly",
     "Atelectasis", "Pleural Effusion", "Consolidation",
     "Pulmonary Edema", "Tuberculosis", "Lung Mass"]

/-- Translation of `fallback_analysis`: the heuristic computer-vision path.  The score
dict is built in the source's insertion order: image quality, contrast,
then the fixed per-region placeholder scores; `overall_confidence` is the
constant 0.75 and the primary diagnosis is the fixed per-region label. -/
def fallback_analysis (img : PImage) (xray_type : String) : BackendResult :=
  let quality : List (String × ℚ) :=
    if brightness img > 6/10 then [("Image Quality", 85/100)]
    else [("Image Quality", 65/100)]
  let contrastEntry : List (String × ℚ) :=
    if varianceQ img > (3/10) ^ 2 then [("Contrast", 80/100)]
    else [("Contrast", 60/100)]
  let typed : List (String × ℚ) × String :=
    if xray_type = "chest" then ([("Pneumonia", 75/100), ("Normal", 25/100)], "Pneumonia")
    else if xray_type = "bone" then ([("Fracture", 70/100), ("Normal", 30/100)], "Fracture")
    else ([("Abnormal", 70/100), ("Normal", 30/100)], "Abnormal")
  { primary_diagnosis := typed.2
    confidence_scores := quality ++ contrastEntry ++ typed.1
    overall_confidence := 75/100
    model := "Fallback Analysis"
    findings :=
      (if brightness img > 6/10 then ["Good image quality"] else ["Suboptimal image quality"]) ++
      (if varianceQ img > (3/10) ^ 2 then ["Good contrast"] else ["Reduced contrast"]) }

/-- Oracle describing the state of the two vision-language tiers for one
call of `analyze_with_medclip`: which packages/models are loaded, whether
the loaded MedCLIP object exposes `forward`, and what the external model
computations returned (`none` models a raised exception, absorbed by the
corresponding `except:` clause of the source). -/
structure ClipEnv where
  /-- Truth of `MEDCLIP_AVAILABLE and self.medclip_model` -/
  medclipAvailable : Bool
  /-- Truth of `hasattr(self.medclip_model, 'forward')` -/
  medclipHasForward : Bool
  /-- softmaxed output row of the MedCLIP forward call;
  `none` models the call raising -/
  medclipForward : Option (List ℚ)
  /-- Value of `F.softmax(torch.rand(1, 10), dim=1)`: the random placeholder row
  substituted when the model lacks a `forward` method -/
  randPredictions : List ℚ
  /-- Truth of `OPENCLIP_AVAILABLE` -/
  openclipAvailable : Bool
  /-- softmaxed similarity row and `model_name` label of the OpenCLIP
  path; `none` models any load/inference exception in that block -/
  openclipResult : Option (List ℚ × String)
deriving DecidableEq, Repr

/-- Translation of `analyze_with_medclip`: try the MedCLIP tier, then the OpenCLIP tier,
then `fallback_analysis`.  Score dicts pair conditions with prediction
entries positionally (`results[condition] = predictions[0][i]` for
`i < len(predictions)`), which is `conditions.zip preds`; an empty result
dict would make Python's `max` raise, which the enclosing `except`
converts into falling through to the next tier, and an out-of-range
index in the OpenCLIP comprehension (`probs[i]`) likewise raises and
falls through.  `overall_confidence` is `torch.max` over the whole
prediction row, not over the subset that was paired with conditions. -/
def analyze_with_medclip (env : ClipEnv) (img : PImage) (xray_type : String) : BackendResult :=
  let conditions := get_medical_conditions xray_type
  let medclipAttempt : Option BackendResult :=
    if env.medclipAvailable then
      let predictions? : Option (List ℚ) :=
        if env.medclipHasForward then env.medclipForward
        else some env.randPredictions
      match predictions? with
      | none => none
      | some preds =>
        let results := conditions.zip preds
        if results.isEmpty then none
        else some
          { primary_diagnosis := maxKey results
            confidence_scores := results
            overall_confidence := listMaxQ preds
            model := "MedCLIP 0.0.3" }
    else none
  match medclipAttempt with
  | some r => r
  | none =>
    let openclipAttempt : Option BackendResult :=
      if env.openclipAvailable then
        match env.openclipResult with
        | none => none
        | some pn =>
          if conditions.length ≤ pn.1.length then
            let results := conditions.zip pn.1
            if results.isEmpty then none
            else some
              { primary_diagnosis := maxKey results
                confidence_scores := results
                overall_confidence := listMaxQ pn.1
                model := pn.2 }
          else none
      else none
    match openclipAttempt with
    | some r => r
    | none => fallback_analysis img xray_type

/-- Core of `ensemble_predictions` when both constituents are present:
`score[c] = 0.6 * clip_score[c] + 0.4 * densenet_score[c]` over the
ConditionList for the region, argmax primary, the combined score of the
primary as overall confidence, and both constituents retained under
`individual_models` (clip first, densenet second). -/
def ensemble_combine (clip_result densenet_result : BackendResult)
    (xray_type : String) : Diagnosis :=
  let conditions := get_medical_conditions xray_type
  let ensemble_scores := conditions.map fun condition =>
    (condition,
      (6/10 : ℚ) * dictGet clip_result.confidence_scores condition 0 +
      (4/10 : ℚ) * dictGet densenet_result.confidence_scores condition 0)
  let primary := maxKey ensemble_scores
  let confidence := dictGet ensemble_scores primary 0
  { primary_diagnosis := primary
    confidence_scores := ensemble_scores
    overall_confidence := confidence
    model := "Ensemble (" ++ clip_result.model ++ " + " ++ densenet_result.model ++ ")"
    findings := []
    individual_models := some (clip_result, densenet_result) }

/-- Translation of `ensemble_predictions`: if one input is missing, return the other
one; if both are present, the weighted ensemble. -/
def ensemble_predictions (clip_result densenet_result : Option BackendResult)
    (xray_type : String) : Option Diagnosis :=
  match clip_result, densenet_result with
  | none, none => none
  | some c, none => some c.toDiagnosis
  | none, some d => some d.toDiagnosis
  | some c, some d => some (ensemble_combine c d xray_type)

/-- Python's `str.upper()` for the ASCII region-type labels used by the
pipeline. -/
def pyUpper (s : String) : String :=
  ⟨s.data.map fun c => if c.isLower then Char.ofNat (c.toNat - 32) else c⟩

/-- The fixed literal segments of the `fallback_report` template, spliced
around the interpolated values exactly as in the source f-string. -/
def reportText (upperType pct primary : String) : String :=
  "\nRAIO-X DE " ++ upperType ++ " - RELATÓRIO MÉDICO\n\nACHADOS:\nAnálise de IA realizada com confiança de " ++
  pct ++
  ".\nDiagnóstico principal: " ++
  primary ++
  "\n\nIMPRESSÃO:\n" ++
  primary ++
  " com confiança de " ++
  pct ++
  ".\n\nRECOMENDAÇÕES:\n1. Correlação com sintomas clínicos\n2. Avaliação médica complementar\n3. Exames adicionais se necessário\n4. Acompanhamento conforme orientação médica\n\nOBSERVAÇÃO:\nEste relatório foi gerado por sistema de IA e deve ser interpretado por médico qualificado.\n"

/-- Translation of `fallback_report`: the deterministic templated report.  It reads only
`diagnosis['primary_diagnosis']`, `diagnosis['overall_confidence']` and
`xray_type` (the `patient_info` argument is accepted and ignored, as in
the source); `datetime.now().isoformat()` is modelled by the explicit
`now` argument. -/
def fallback_report (diagnosis : Diagnosis) (patient_info : PatientInfo)
    (xray_type : String) (now : String) : MedicalReport :=
  let primary := diagnosis.primary_diagnosis
  let confidence := diagnosis.overall_confidence
  { report := reportText (pyUpper xray_type) (fmtPercent1 confidence) primary
    generated_by := "Fallback System"
    timestamp := now }

/-- Outcome of the single remote call `requests.post(...)` in
`generate_medical_report`. -/
inductive NetOutcome where
  /-- Outcome `requests.exceptions.Timeout` (the 30-second bound) -/
  | timeout : NetOutcome
  /-- Outcome `requests.exceptions.RequestException` -/
  | transportError : NetOutcome
  /-- a response with its status code and, for a 200, the extracted
  `result['choices'][0]['message']['content']` (`none` models the key
  lookup raising, absorbed by the outer `except`) -/
  | response (status : ℕ) (content : Option String) : NetOutcome
  /-- any other unexpected exception, absorbed by the outer `except` -/
  | unexpected : NetOutcome
deriving DecidableEq, Repr

/-- External configuration and network oracle for `generate_medical_report`. -/
structure ReportEnv where
  /-- Value of `os.environ.get('DEEPSEEK_API_KEY')` -/
  apiKey : Option String
  /-- Truth of `os.environ.get('USE_DEEPSEEK', 'false').lower() == 'true'` -/
  useDeepseek : Bool
  /-- what the remote call would do, were it attempted -/
  netOutcome : NetOutcome
deriving DecidableEq, Repr

/-- Python truthiness of the credential: absent or empty means falsy. -/
def apiKeyTruthy (k : Option String) : Bool :=
  match k with
  | none => false
  | some s => !(s == "")

/-- Translation of `generate_medical_report`: skip the remote call when the feature flag
is off or the credential is missing; otherwise attempt the call and fall
back to the templated report on timeout, transport error, non-200 status,
or any unexpected exception.  The second component records whether the
network call was attempted. -/
def generate_medical_report (env : ReportEnv) (diagnosis : Diagnosis)
    (patient_info : PatientInfo) (xray_type : String) (now : String) :
    MedicalReport × Bool :=
  if !(apiKeyTruthy env.apiKey) || !env.useDeepseek then
    (fallback_report diagnosis patient_info xray_type now, false)
  else
    match env.netOutcome with
    | NetOutcome.timeout =>
      (fallback_report diagnosis patient_info xray_type now, true)
    | NetOutcome.transportError =>
      (fallback_report diagnosis patient_info xray_type now, true)
    | NetOutcome.unexpected =>
      (fallback_report diagnosis patient_info xray_type now, true)
    | NetOutcome.response status content =>
      if status = 200 then
        match content with
        | some text =>
          ({ report := text, generated_by := "DeepSeek 3.1", timestamp := now }, true)
        | none =>
          (fallback_report diagnosis patient_info xray_type now, true)
      else
        (fallback_report diagnosis patient_info xray_type now, true)

/-- Oracle for the visualisation tier: whether the Grad-CAM capable
classifier is available and, if invoked, what saliency map it produced
(`none` models the Grad-CAM block raising, absorbed by its `except`). -/
structure VizEnv where
  /-- Truth of `MONAI_AVAILABLE` -/
  monaiAvailable : Bool
  /-- Truth of `self.densenet_model` being loaded -/
  densenetLoaded : Bool
  /-- the Grad-CAM output pixels, or `none` if that block raised -/
  gradcamResult : Option (List ℚ)
deriving DecidableEq, Repr

/-- Models `cv2.applyColorMap` + PNG + base64 over the `np.uint8` raster:
an injective serialisation of the byte raster behind the data-URL scheme
used by the source. -/
def encodeColorMap (xs : List ℚ) : String :=
  "data:image/png;base64," ++ toString (xs.map fun q => (Int.floor (255 * q)).toNat % 256)

/-- Body of `generate_heatmap` before its outer catch-all `except`.  The
Grad-CAM path normalises with an explicit `+ 1e-8` guard; the intensity
fallback divides by `max - min` unguarded, modelled as an error on a
degenerate constant image (worst-case reading of that division). -/
def generate_heatmap_body (env : VizEnv) (img : PImage) (d : Diagnosis) :
    Except String Heatmap :=
  let gradcamAttempt : Option (List ℚ) :=
    if env.monaiAvailable && env.densenetLoaded then
      if (get_medical_conditions "chest").contains d.primary_diagnosis then
        match env.gradcamResult with
        | some cam =>
          some (cam.map fun v =>
            (v - listMinQ cam) / (listMaxQ cam - listMinQ cam + 1/100000000))
        | none => none
      else none
    else none
  match gradcamAttempt with
  | some norm =>
    Except.ok
      { heatmap := some (encodeColorMap norm)
        description := "Grad-CAM: Áreas onde a IA focou para diagnosticar " ++ d.primary_diagnosis }
  | none =>
    let gray := img.plane
    let lo := listMinQ gray
    let hi := listMaxQ gray
    if hi - lo = 0 then Except.error "zero division in min-max normalisation"
    else
      Except.ok
        { heatmap := some (encodeColorMap (gray.map fun v => (v - lo) / (hi - lo)))
          description := "Visualização de intensidade (fallback) para " ++ d.primary_diagnosis }

/-- Translation of `generate_heatmap`: the body wrapped in the outer `except`, which
converts any failure into the explicit absent-image result. -/
def generate_heatmap (env : VizEnv) (img : PImage) (d : Diagnosis) : Heatmap :=
  match generate_heatmap_body env img d with
  | Except.ok h => h
  | Except.error _ => { heatmap := none, description := "Mapa de calor não disponível" }

/-- Translation of `get_differential_diagnoses`: fixed lookup on the primary diagnosis
with a generic two-item default. -/
def get_differential_diagnoses (diagnosis : Diagnosis) (xray_type : String) : List String :=
  let primary := diagnosis.primary_diagnosis
  if primary = "Pneumonia" then
    ["Tuberculosis", "Pulmonary Edema", "Lung Cancer", "Pneumonitis"]
  else if primary = "Fracture" then
    ["Bone Bruise", "Arthritis", "Bone Tumor", "Osteomyelitis"]
  else if primary = "Normal" then
    ["Early Disease", "Subtle Findings", "Technical Limitations"]
  else if primary = "Tuberculosis" then
    ["Pneumonia", "Lung Cancer", "Sarcoidosis", "Fungal Infection"]
  else
    ["Consider clinical correlation", "Additional imaging may be helpful"]

/-- Translation of `get_clinical_recommendations`: a confidence-tiered base message
followed by region-specific boilerplate.  The function reads only the
diagnosis confidence and the region type; patient metadata is not an
input.  String literals are copied byte-for-byte from the source file
(which stores them in a doubly-encoded form). -/
def get_clinical_recommendations (diagnosis : Diagnosis) (xray_type : String) : List String :=
  let confidence := diagnosis.overall_confidence
  let base :=
    if confidence > 8/10 then
      ["Alta confianÃ§a no diagnÃ³stico - considere tratamento especÃ­fico"]
    else if confidence > 6/10 then
      ["ConfianÃ§a moderada - correlacione com sintomas clÃ­nicos"]
    else
      ["ConfianÃ§a baixa - considere exames complementares"]
  base ++
    (if xray_type = "chest" then
      ["Avalie sintomas respiratÃ³rios",
       "Considere exames laboratoriais (hemograma, PCR)",
       "Acompanhamento radiolÃ³gico se necessÃ¡rio"]
     else if xray_type = "bone" then
      ["Avalie mobilidade e dor",
       "Considere imobilizaÃ§Ã£o se fratura",
       "Acompanhamento ortopÃ©dico"]
     else [])

/-- Translation of `assess_image_quality`: additive quality score from brightness range,
contrast threshold (`np.std > 0.2`, stated on the variance) and a
3-channel shape check, bucketed into four labels. -/
def assess_image_quality (img : PImage) : String :=
  let b := brightness img
  let score : ℚ :=
    (if 3/10 ≤ b ∧ b ≤ 7/10 then 4/10 else 0) +
    (if varianceQ img > (2/10) ^ 2 then 4/10 else 0) +
    (if img.channels = 3 then 2/10 else 0)
  if score > 8/10 then "Excellent"
  else if score > 6/10 then "Good"
  else if score > 4/10 then "Fair"
  else "Poor"

/-- The assembled analysis payload of a successful `complete_analysis`
run (`success`, diagnosis, report, visualisation, clinical guidance and
confidence metrics; `aiProvider`/`framework` echo the diagnosis model). -/
structure AnalysisResult where
  success : Bool
  timestamp : String
  xray_type : String
  patient_info : PatientInfo
  diagnosis : Diagnosis
  medical_report : MedicalReport
  visualization : Heatmap
  differential_diagnoses : List String
  clinical_recommendations : List String
  overall_confidence : ℚ
  image_quality : String
  analysis_reliability : String
  aiProvider : String
  framework : String
deriving DecidableEq, Repr

/-- Translation of `complete_analysis` on the successful-preprocessing path (a
preprocessing failure aborts with an error record carrying no diagnosis
and is outside the scope of the claims).  `densenet_diagnosis` is the
outcome of `analyze_with_densenet` — `none` both when the DenseNet model
is not loaded and when its analysis failed, which the source treats
identically (`diagnosis = clip_diagnosis`). -/
def complete_analysis (cenv : ClipEnv) (renv : ReportEnv) (venv : VizEnv)
    (densenet_diagnosis : Option BackendResult) (img : PImage)
    (xray_type : String) (patient_info : PatientInfo) (now : String) : AnalysisResult :=
  let clip_diagnosis := analyze_with_medclip cenv img xray_type
  let diagnosis :=
    (ensemble_predictions (some clip_diagnosis) densenet_diagnosis xray_type).getD
      clip_diagnosis.toDiagnosis
  let report := (generate_medical_report renv diagnosis patient_info xray_type now).1
  let heatmap := generate_heatmap venv img diagnosis
  { success := true
    timestamp := now
    xray_type := xray_type
    patient_info := patient_info
    diagnosis := diagnosis
    medical_report := report
    visualization := heatmap
    differential_diagnoses := get_differential_diagnoses diagnosis xray_type
    clinical_recommendations := get_clinical_recommendations diagnosis xray_type
    overall_confidence := diagnosis.overall_confidence
    image_quality := assess_image_quality img
    analysis_reliability := if diagnosis.overall_confidence > 8/10 then "High" else "Medium"
    aiProvider := diagnosis.model
    framework := diagnosis.model }

/-- The backend environment with every model tier disabled (no MedCLIP,
no OpenCLIP): `analyze_with_medclip` must reach `fallback_analysis`. -/
def disabledClipEnv : ClipEnv :=
  { medclipAvailable := false
    medclipHasForward := false
    medclipForward := none
    randPredictions := []
    openclipAvailable := false
    openclipResult := none }

lemma maxEntryAux_mem (e : String × ℚ) (t : List (String × ℚ)) :
    maxEntryAux e t = e ∨ maxEntryAux e t ∈ t := by
  induction t generalizing e with
  | nil => left; rfl
  | cons f t ih =>
    simp only [maxEntryAux]
    by_cases h : (maxEntryAux f t).2 > e.2
    · simp only [h, if_pos]
      rcases ih f with h1 | h1
      · right; rw [h1]; exact List.mem_cons_self f t
      · right; exact List.mem_cons_of_mem f h1
    · simp only [h, if_neg, not_false_iff]
      left; trivial

lemma maxEntryAux_snd (e : String × ℚ) (t : List (String × ℚ)) :
    (maxEntryAux e t).2 = listMaxQ ((e :: t).map Prod.snd) := by
  induction t generalizing e with
  | nil => rfl
  | cons f t ih =>
    simp only [maxEntryAux, List.map_cons]
    have hrhs : listMaxQ (e.2 :: f.2 :: t.map Prod.snd) =
        max e.2 (listMaxQ (f.2 :: t.map Prod.snd)) := rfl
    rw [hrhs]
    have hf := ih f
    simp only [List.map_cons] at hf
    by_cases h : (maxEntryAux f t).2 > e.2
    · simp only [h, if_pos]
      rw [hf, max_eq_right]
      rw [← hf]
      exact le_of_lt h
    · simp only [h, if_neg, not_false_iff]
      push_neg at h
      rw [max_eq_left]
      rw [← hf]
      exact h

lemma maxEntryAux_find (e : String × ℚ) (t : List (String × ℚ)) :
    (e :: t).find? (fun x => decide ((maxEntryAux e t).2 ≤ x.2)) =
      some (maxEntryAux e t) := by
  induction t generalizing e with
  | nil =>
    simp only [maxEntryAux, List.find?]
    simp
  | cons f t ih =>
    simp only [maxEntryAux]
    by_cases h : (maxEntryAux f t).2 > e.2
    · simp only [h, if_pos]
      rw [List.find?_cons]
      have hpred : (decide ((maxEntryAux f t).2 ≤ e.2)) = false := by
        simp only [decide_eq_false_iff_not, not_le]
        exact h
      rw [hpred]
      exact ih f
    · simp only [h, if_neg, not_false_iff]
      rw [List.find?_cons]
      have hpred : (decide (e.2 ≤ e.2)) = true := by simp
      rw [hpred]

lemma dictGet_of_mem_nodup (l : List (String × ℚ)) (k : String) (v d : ℚ)
    (hnd : (l.map Prod.fst).Nodup) (hmem : (k, v) ∈ l) :
    dictGet l k d = v := by
  induction l with
  | nil => cases hmem
  | cons e t ih =>
    simp only [List.map_cons, List.nodup_cons] at hnd
    rcases List.mem_cons.mp hmem with h | h
    · rw [← h]
      simp [dictGet, List.find?_cons]
    · have hk : e.1 ≠ k := by
        intro hek
        exact hnd.1 (hek ▸ (List.mem_map.mpr ⟨(k, v), h, rfl⟩))
      simp only [dictGet, List.find?_cons]
      have : (e.1 == k) = false := by
        simp only [beq_eq_false_iff_ne, ne_eq]
        exact hk
      rw [this]
      exact ih hnd.2 h

lemma map_fst_map_pair (conds : List String) (f : String → ℚ) :
    ((conds.map fun c => (c, f c)).map Prod.fst) = conds := by
  induction conds with
  | nil => rfl
  | cons c t ih => simp [ih]

lemma dictGet_map_self (conds : List String) (f : String → ℚ) (c : String) (d : ℚ)
    (hnd : conds.Nodup) (hmem : c ∈ conds) :
    dictGet (conds.map fun c => (c, f c)) c d = f c := by
  apply dictGet_of_mem_nodup
  · rw [map_fst_map_pair]; exact hnd
  · exact List.mem_map.mpr ⟨c, hmem, rfl⟩

lemma argmaxInvariant_of_nodup (l : List (String × ℚ)) (hne : l ≠ [])
    (hnd : (l.map Prod.fst).Nodup) :
    argmaxInvariant l (maxKey l) (dictGet l (maxKey l) 0) := by
  cases l with
  | nil => exact absurd rfl hne
  | cons e t =>
    have hm : maxEntry (e :: t) = some (maxEntryAux e t) := rfl
    have hkey : maxKey (e :: t) = (maxEntryAux e t).1 := by
      simp [maxKey, hm]
    have hmem : maxEntryAux e t ∈ e :: t := by
      rcases maxEntryAux_mem e t with h | h
      · rw [h]; exact List.mem_cons_self e t
      · exact List.mem_cons_of_mem e h
    have hget : dictGet (e :: t) (maxEntryAux e t).1 0 = (maxEntryAux e t).2 := by
      apply dictGet_of_mem_nodup _ _ _ _ hnd
      rw [← Prod.mk.eta (p := maxEntryAux e t)] at hmem
      exact hmem
    have hmaxval : maxVal (e :: t) = (maxEntryAux e t).2 := by
      rw [maxVal, ← maxEntryAux_snd]
    constructor
    · rw [hkey, hget, hmaxval]
    · rw [hkey, hget, hmaxval]
      rw [Prod.mk.eta]
      exact maxEntryAux_find e t

lemma map_fst_zip_take (c : List String) (p : List ℚ) :
    (c.zip p).map Prod.fst = c.take p.length := by
  induction c generalizing p with
  | nil => simp
  | cons a c ih =>
    cases p with
    | nil => simp
    | cons q p => simp [List.zip_cons_cons, ih]

lemma map_snd_zip_of_le (c : List String) (p : List ℚ) (h : p.length ≤ c.length) :
    (c.zip p).map Prod.snd = p := by
  induction c generalizing p with
  | nil =>
    cases p with
    | nil => rfl
    | cons q p => simp at h
  | cons a c ih =>
    cases p with
    | nil => rfl
    | cons q p =>
      simp only [List.zip_cons_cons, List.map_cons]
      simp only [List.length_cons, Nat.succ_le_succ_iff] at h
      rw [ih p h]

/-- Every region type resolves to one of the four fixed condition lists,
each of which is non-empty with pairwise-distinct entries. -/
lemma get_medical_conditions_sound (x : String) :
    get_medical_conditions x ≠ [] ∧ (get_medical_conditions x).Nodup := by
  unfold get_medical_conditions
  split_ifs <;> exact ⟨by decide, by decide⟩

lemma startsWithSeq_append (n l l₂ : List Char) (h : startsWithSeq n l = true) :
    startsWithSeq n (l ++ l₂) = true := by
  induction n generalizing l with
  | nil => rfl
  | cons c ns ih =>
    cases l with
    | nil => simp [startsWithSeq] at h
    | cons a l =>
      simp only [startsWithSeq, Bool.and_eq_true] at h
      simp only [List.cons_append, startsWithSeq, Bool.and_eq_true]
      exact ⟨h.1, ih l h.2⟩

lemma containsSeq_nil_needle (hay : List Char) : containsSeq [] hay = true := by
  induction hay with
  | nil => rfl
  | cons a l ih => simp [containsSeq, startsWithSeq, ih]

lemma containsSeq_append_left (n l₁ l₂ : List Char) (h : containsSeq n l₁ = true) :
    containsSeq n (l₁ ++ l₂) = true := by
  induction l₁ with
  | nil =>
    cases n with
    | nil => simp [containsSeq_nil_needle]
    | cons c ns => simp [containsSeq, startsWithSeq] at h
  | cons a l ih =>
    simp only [containsSeq, Bool.or_eq_true] at h
    simp only [List.cons_append, containsSeq, Bool.or_eq_true]
    rcases h with h | h
    · exact Or.inl (startsWithSeq_append n (a :: l) l₂ h)
    · exact Or.inr (ih h)

lemma containsSeq_append_right (n l₁ l₂ : List Char) (h : containsSeq n l₂ = true) :
    containsSeq n (l₁ ++ l₂) = true := by
  induction l₁ with
  | nil => exact h
  | cons a l ih =>
    simp only [List.cons_append, containsSeq, Bool.or_eq_true]
    exact Or.inr ih

lemma string_data_append (a b : String) : (a ++ b).data = a.data ++ b.data := rfl

lemma containsSub_append_left (a b needle : String) (h : containsSub a needle = true) :
    containsSub (a ++ b) needle = true := by
  unfold containsSub at *
  rw [string_data_append]
  exact containsSeq_append_left needle.data a.data b.data h

lemma containsSub_append_right (a b needle : String) (h : containsSub b needle = true) :
    containsSub (a ++ b) needle = true := by
  unfold containsSub at *
  rw [string_data_append]
  exact containsSeq_append_right needle.data a.data b.data h

/-- The four structural markers of the templated report — the findings
header, the impression header, the recommendations header and the
follow-up item — are present for every interpolated region label,
percentage and primary diagnosis. -/
lemma reportText_sections (up pct primary : String) :
    containsSub (reportText up pct primary) "ACHADOS" = true ∧
    containsSub (reportText up pct primary) "IMPRESSÃO" = true ∧
    containsSub (reportText up pct primary) "RECOMENDAÇÕES" = true ∧
    containsSub (reportText up pct primary) "Acompanhamento" = true := by
  unfold reportText
  refine ⟨?_, ?_, ?_, ?_⟩
  · apply containsSub_append_left
    apply containsSub_append_left
    apply containsSub_append_left
    apply containsSub_append_left
    apply containsSub_append_left
    apply containsSub_append_left
    apply containsSub_append_left
    apply containsSub_append_left
    apply containsSub_append_right
    decide
  · apply containsSub_append_left
    apply containsSub_append_left
    apply containsSub_append_left
    apply containsSub_append_left
    apply containsSub_append_right
    decide
  · apply containsSub_append_right
    decide
  · apply containsSub_append_right
    decide

/-- When the MedCLIP tier answers (model loaded and the prediction row
obtained, whether from a real forward call or from the random
placeholder), `analyze_with_medclip` returns that tier's result. -/
lemma analyze_with_medclip_medclip_path (env : ClipEnv) (img : PImage) (x : String)
    (preds : List ℚ) (h1 : env.medclipAvailable = true)
    (hp : (if env.medclipHasForward then env.medclipForward else some env.randPredictions) = some preds)
    (hne : (get_medical_conditions x).zip preds ≠ []) :
    analyze_with_medclip env img x =
      { primary_diagnosis := maxKey ((get_medical_conditions x).zip preds)
        confidence_scores := (get_medical_conditions x).zip preds
        overall_confidence := listMaxQ preds
        model := "MedCLIP 0.0.3" } := by
  unfold analyze_with_medclip
  rw [h1, hp]
  simp only [if_true, List.isEmpty_iff, hne, if_neg, not_false_iff]

/-- The ensemble result always satisfies the max/argmax invariant. -/
lemma ensemble_argmax (c d : BackendResult) (x : String) :
    argmaxInvariant (ensemble_combine c d x).confidence_scores
      (ensemble_combine c d x).primary_diagnosis
      (ensemble_combine c d x).overall_confidence := by
  have hs := get_medical_conditions_sound x
  unfold ensemble_combine
  simp only
  apply argmaxInvariant_of_nodup
  · intro h
    exact hs.1 (List.map_eq_nil_iff.mp h)
  · rw [map_fst_map_pair]
    exact hs.2

/-- The MedCLIP-path result satisfies the max/argmax invariant whenever
the prediction row is non-empty and no longer than the condition list
(so that `torch.max` over the whole row coincides with the maximum of
the scores actually paired with conditions). -/
lemma medclip_argmax (env : ClipEnv) (img : PImage) (x : String) (preds : List ℚ)
    (h1 : env.medclipAvailable = true) (h2 : env.medclipHasForward = true)
    (h3 : env.medclipForward = some preds) (h4 : preds ≠ [])
    (h5 : preds.length ≤ (get_medical_conditions x).length) :
    argmaxInvariant (analyze_with_medclip env img x).confidence_scores
      (analyze_with_medclip env img x).primary_diagnosis
      (analyze_with_medclip env img x).overall_confidence := by
  have hc := get_medical_conditions_sound x
  have hzne : (get_medical_conditions x).zip preds ≠ [] := by
    cases hcc : get_medical_conditions x with
    | nil => exact absurd hcc hc.1
    | cons a t =>
      cases preds with
      | nil => exact absurd rfl h4
      | cons q ps => simp [List.zip_cons_cons]
  have hznd : (((get_medical_conditions x).zip preds).map Prod.fst).Nodup := by
    rw [map_fst_zip_take]
    exact hc.2.sublist (List.take_sublist _ _)
  have heq := analyze_with_medclip_medclip_path env img x preds h1
    (by rw [h2, if_pos rfl]; exact h3) hzne
  rw [heq]
  have hinv := argmaxInvariant_of_nodup _ hzne hznd
  have hv : maxVal ((get_medical_conditions x).zip preds) = listMaxQ preds := by
    rw [maxVal, map_snd_zip_of_le _ _ h5]
  obtain ⟨he, hf⟩ := hinv
  constructor
  · simp only
    rw [hv]
  · simp only
    have hlp : listMaxQ preds =
        dictGet ((get_medical_conditions x).zip preds)
          (maxKey ((get_medical_conditions x).zip preds)) 0 := by
      rw [he, hv]
    rw [hlp]
    exact hf

/-- Concrete inputs used by the counterexample and witness theorems. -/
def imgEx : PImage := ⟨1, [0, 0, 0, 0]⟩

/-- A concrete successful DenseNet classifier result. -/
def ddEx : BackendResult :=
  { primary_diagnosis := "Normal"
    confidence_scores := [("Normal", 1/2), ("Pneumonia", 1/4)]
    overall_confidence := 1/2
    model := "MONAI DenseNet121" }

/-- Report environment with the credential unset. -/
def renvEx : ReportEnv := ⟨none, false, NetOutcome.unexpected⟩

/-- Visualisation environment with the Grad-CAM tier unavailable. -/
def venvEx : VizEnv := ⟨false, false, none⟩

/-- The end-to-end scenario's patient metadata: age 70, smoker. -/
def pEx : PatientInfo := { age := some 70, smoking := some true }

/-- Keyword test for an age-related recommendation text, in either the
source's Portuguese or the spec's English. -/
def mentionsAge (s : String) : Bool :=
  containsSub s "age" || containsSub s "Age" || containsSub s "idade" ||
  containsSub s "Idade" || containsSub s "anos" || containsSub s "70" ||
  containsSub s "elder" || containsSub s "Elder"

/-- Keyword test for a smoking-related recommendation text. -/
def mentionsSmoking (s : String) : Bool :=
  containsSub s "smok" || containsSub s "Smok" || containsSub s "fum" ||
  containsSub s "Fum" || containsSub s "tabag" || containsSub s "Tabag" ||
  containsSub s "cigar" || containsSub s "Cigar"

/-- A concrete vision-language backend result. -/
def cEx : BackendResult :=
  { primary_diagnosis := "Pneumonia"
    confidence_scores := [("Pneumonia", 7/10), ("Normal", 3/10)]
    overall_confidence := 7/10
    model := "BiomedCLIP (Medical Specialist)" }

/-- A concrete diagnosis (the heuristic chest verdict). -/
def dEx : Diagnosis :=
  { primary_diagnosis := "Pneumonia"
    confidence_scores := [("Pneumonia", 3/4), ("Normal", 1/4)]
    overall_confidence := 3/4
    model := "Fallback Analysis" }

/-- A concrete non-empty prediction row shorter than the chest list. -/
def predsEx : List ℚ := [1/10, 3/5, 3/10]

/-- MedCLIP loaded with a working forward method returning `predsEx`. -/
def mcEnvEx : ClipEnv :=
  { medclipAvailable := true
    medclipHasForward := true
    medclipForward := some predsEx
    randPredictions := []
    openclipAvailable := false
    openclipResult := none }

/-- MedCLIP loaded but without a `forward` method, while the OpenCLIP
tier is loaded and would answer: the configuration that triggers the
random-placeholder branch. -/
def randEnvEx : ClipEnv :=
  { medclipAvailable := true
    medclipHasForward := false
    medclipForward := none
    randPredictions := [1/10, 3/10, 1/5, 1/10, 1/10, 1/20, 1/20, 1/20, 1/20, 1/20]
    openclipAvailable := true
    openclipResult := some ([1/2, 1/2, 0, 0, 0, 0, 0, 0, 0, 0], "BiomedCLIP (Medical Specialist)") }

lemma ensemble_combine_score (c d : BackendResult) (x : String) (cond : String)
    (hmem : cond ∈ get_medical_conditions x) :
    dictGet (ensemble_combine c d x).confidence_scores cond 0 =
      (6/10 : ℚ) * dictGet c.confidence_scores cond 0 +
      (4/10 : ℚ) * dictGet d.confidence_scores cond 0 := by
  unfold ensemble_combine
  simp only
  exact dictGet_map_self _ _ _ _ (get_medical_conditions_sound x).2 hmem

/-- The ensemble depends on its two score dictionaries only through
their lookups, not through their list representation or order. -/
lemma ensemble_combine_ext (c d c' d' : BackendResult) (x : String)
    (h1 : ∀ k, dictGet c'.confidence_scores k 0 = dictGet c.confidence_scores k 0)
    (h2 : ∀ k, dictGet d'.confidence_scores k 0 = dictGet d.confidence_scores k 0) :
    (ensemble_combine c' d' x).confidence_scores = (ensemble_combine c d x).confidence_scores ∧
    (ensemble_combine c' d' x).primary_diagnosis = (ensemble_combine c d x).primary_diagnosis ∧
    (ensemble_combine c' d' x).overall_confidence = (ensemble_combine c d x).overall_confidence := by
  have hmap : ((get_medical_conditions x).map fun condition =>
      (condition, (6/10 : ℚ) * dictGet c'.confidence_scores condition 0 +
        (4/10 : ℚ) * dictGet d'.confidence_scores condition 0)) =
      ((get_medical_conditions x).map fun condition =>
      (condition, (6/10 : ℚ) * dictGet c.confidence_scores condition 0 +
        (4/10 : ℚ) * dictGet d.confidence_scores condition 0)) := by
    apply List.map_congr_left
    intro a ha
    rw [h1 a, h2 a]
  refine ⟨?_, ?_, ?_⟩ <;>
  · unfold ensemble_combine
    simp only
    rw [hmap]

/-- An `Except.ok` outcome of the heatmap body always carries an image. -/
lemma generate_heatmap_body_ok (env : VizEnv) (img : PImage) (d : Diagnosis) (h : Heatmap)
    (hb : generate_heatmap_body env img d = Except.ok h) : h.heatmap.isSome = true := by
  unfold generate_heatmap_body at hb
  by_cases h1 : (env.monaiAvailable && env.densenetLoaded) = true
  · rw [if_pos h1] at hb
    by_cases h2 : ((get_medical_conditions "chest").contains d.primary_diagnosis) = true
    · rw [if_pos h2] at hb
      cases hgc : env.gradcamResult with
      | some cam =>
        rw [hgc] at hb
        simp only [] at hb
        cases hb
        rfl
      | none =>
        rw [hgc] at hb
        simp only [] at hb
        split at hb
        · cases hb
        · cases hb
          rfl
    · rw [if_neg h2] at hb
      simp only [] at hb
      split at hb
      · cases hb
      · cases hb
        rfl
  · rw [if_neg h1] at hb
    simp only [] at hb
    split at hb
    · cases hb
    · cases hb
      rfl

/-- Evaluation fact: `f"{0.75:.1%}"` is `75.0%`. -/
lemma fmtPercent1_eval : fmtPercent1 (3/4) = "75.0%" := by
  have h : roundHalfEven ((3/4 : ℚ) * 1000) = 750 := by norm_num [roundHalfEven]
  simp only [fmtPercent1, h]
  decide

/-- C1 (corrected): the claimed invariant fails on the heuristic
fallback path — a bone-region fallback result has the fixed
`overall_confidence = 0.75` while the maximum of its score dictionary is
the fixed 0.70 `Fracture` entry, so `overall_confidence` is not the
maximum of `confidence_scores.values()`. -/
theorem C1_counterexample :
    (fallback_analysis imgEx "bone").overall_confidence ≠
      maxVal (fallback_analysis imgEx "bone").confidence_scores := by
  norm_num [fallback_analysis, imgEx, maxVal, listMaxQ, brightness, varianceQ]

/-- C1 (amended): the max/argmax invariant — `overall_confidence` equals
the maximum score and `primary_diagnosis` is the first condition in
ConditionList order attaining it — holds for every ensemble result, and
for every MedCLIP-path result whose prediction row is non-empty and no
longer than the ConditionList; the heuristic fallback path does not
satisfy it. -/
theorem C1_thm :
    (∀ (c d : BackendResult) (x : String),
      argmaxInvariant (ensemble_combine c d x).confidence_scores
        (ensemble_combine c d x).primary_diagnosis
        (ensemble_combine c d x).overall_confidence) ∧
    (∀ (env : ClipEnv) (img : PImage) (x : String) (preds : List ℚ),
      env.medclipAvailable = true → env.medclipHasForward = true →
      env.medclipForward = some preds → preds ≠ [] →
      preds.length ≤ (get_medical_conditions x).length →
      argmaxInvariant (analyze_with_medclip env img x).confidence_scores
        (analyze_with_medclip env img x).primary_diagnosis
        (analyze_with_medclip env img x).overall_confidence) :=
  ⟨ensemble_argmax, fun env img x preds h1 h2 h3 h4 h5 =>
    medclip_argmax env img x preds h1 h2 h3 h4 h5⟩

/-- C1 witness: the amended invariant instantiated on a concrete
MedCLIP-path run. -/
theorem C1_witness :
    argmaxInvariant (analyze_with_medclip mcEnvEx imgEx "chest").confidence_scores
      (analyze_with_medclip mcEnvEx imgEx "chest").primary_diagnosis
      (analyze_with_medclip mcEnvEx imgEx "chest").overall_confidence :=
  C1_thm.2 mcEnvEx imgEx "chest" predsEx rfl rfl rfl (by decide) (by decide)

/-- C2 (confirmed): when both a vision-language result and a classifier
result are present, the ensemble scores every ConditionList condition as
`0.6 * vlm + 0.4 * classifier` with missing scores defaulting to 0, takes
the first-in-order argmax as the primary with its combined score as the
overall confidence, retains both constituents under `individual_models`,
and depends on the two inputs only through their score lookups (hence is
independent of dictionary iteration order). -/
theorem C2_thm : ∀ (c d : BackendResult) (x : String),
    (∀ cond ∈ get_medical_conditions x,
      dictGet (ensemble_combine c d x).confidence_scores cond 0 =
        (6/10 : ℚ) * dictGet c.confidence_scores cond 0 +
        (4/10 : ℚ) * dictGet d.confidence_scores cond 0) ∧
    argmaxInvariant (ensemble_combine c d x).confidence_scores
      (ensemble_combine c d x).primary_diagnosis
      (ensemble_combine c d x).overall_confidence ∧
    (ensemble_combine c d x).individual_models = some (c, d) ∧
    (∀ c' d' : BackendResult,
      (∀ k, dictGet c'.confidence_scores k 0 = dictGet c.confidence_scores k 0) →
      (∀ k, dictGet d'.confidence_scores k 0 = dictGet d.confidence_scores k 0) →
      (ensemble_combine c' d' x).confidence_scores = (ensemble_combine c d x).confidence_scores ∧
      (ensemble_combine c' d' x).primary_diagnosis = (ensemble_combine c d x).primary_diagnosis ∧
      (ensemble_combine c' d' x).overall_confidence = (ensemble_combine c d x).overall_confidence) := by
  intro c d x
  refine ⟨?_, ensemble_argmax c d x, rfl, ?_⟩
  · intro cond hmem
    exact ensemble_combine_score c d x cond hmem
  · intro c' d' h1 h2
    exact ensemble_combine_ext c d c' d' x h1 h2

/-- C2 witness: the 0.6/0.4 weighting instantiated on concrete inputs at
the condition `Pneumonia`. -/
theorem C2_witness :
    dictGet (ensemble_combine cEx ddEx "chest").confidence_scores "Pneumonia" 0 =
      (6/10 : ℚ) * dictGet cEx.confidence_scores "Pneumonia" 0 +
      (4/10 : ℚ) * dictGet ddEx.confidence_scores "Pneumonia" 0 :=
  (C2_thm cEx ddEx "chest").1 "Pneumonia" (by decide)

/-- C3 (counterexample): in the all-backends-disabled chest run with
patient {age 70, smoker}, the clinical recommendations are the fixed
four-entry list, and none of its entries mentions age or smoking in any
phrasing — contradicting the claim that an age-related and a
smoking-related entry are present. -/
theorem C3_counterexample :
    (complete_analysis disabledClipEnv renvEx venvEx none imgEx "chest" pEx "t").clinical_recommendations =
      ["ConfianÃ§a moderada - correlacione com sintomas clÃ­nicos",
       "Avalie sintomas respiratÃ³rios",
       "Considere exames laboratoriais (hemograma, PCR)",
       "Acompanhamento radiolÃ³gico se necessÃ¡rio"] ∧
    ((complete_analysis disabledClipEnv renvEx venvEx none imgEx "chest" pEx "t").clinical_recommendations.all
      fun s => !(mentionsAge s || mentionsSmoking s)) = true := by
  have h : (complete_analysis disabledClipEnv renvEx venvEx none imgEx "chest" pEx "t").clinical_recommendations =
      ["ConfianÃ§a moderada - correlacione com sintomas clÃ­nicos",
       "Avalie sintomas respiratÃ³rios",
       "Considere exames laboratoriais (hemograma, PCR)",
       "Acompanhamento radiolÃ³gico se necessÃ¡rio"] := by
    norm_num [complete_analysis, disabledClipEnv, analyze_with_medclip, ensemble_predictions,
      fallback_analysis, imgEx, brightness, varianceQ, BackendResult.toDiagnosis,
      get_clinical_recommendations]
  refine ⟨h, ?_⟩
  rw [h]
  decide

/-- C3 (amended): for any image and patient metadata, a chest run with
all model backends disabled succeeds with `model = "Fallback Analysis"`,
primary `Pneumonia`, overall confidence 0.75, and the `Pneumonia`
differentials; but the clinical recommendations are the fixed list
(moderate-confidence message plus three chest entries) independent of
`patient_info` — there is no age- or smoking-related entry. -/
theorem C3_thm : ∀ (img : PImage) (p : PatientInfo) (now : String)
    (renv : ReportEnv) (venv : VizEnv),
    (complete_analysis disabledClipEnv renv venv none img "chest" p now).success = true ∧
    (complete_analysis disabledClipEnv renv venv none img "chest" p now).diagnosis.model =
      "Fallback Analysis" ∧
    (complete_analysis disabledClipEnv renv venv none img "chest" p now).diagnosis.primary_diagnosis =
      "Pneumonia" ∧
    (complete_analysis disabledClipEnv renv venv none img "chest" p now).overall_confidence = 75/100 ∧
    (complete_analysis disabledClipEnv renv venv none img "chest" p now).differential_diagnoses =
      ["Tuberculosis", "Pulmonary Edema", "Lung Cancer", "Pneumonitis"] ∧
    (complete_analysis disabledClipEnv renv venv none img "chest" p now).clinical_recommendations =
      ["ConfianÃ§a moderada - correlacione com sintomas clÃ­nicos",
       "Avalie sintomas respiratÃ³rios",
       "Considere exames laboratoriais (hemograma, PCR)",
       "Acompanhamento radiolÃ³gico se necessÃ¡rio"] := by
  intro img p now renv venv
  norm_num [complete_analysis, disabledClipEnv, analyze_with_medclip, ensemble_predictions,
    fallback_analysis, BackendResult.toDiagnosis, get_clinical_recommendations,
    get_differential_diagnoses]

/-- C4 (counterexample): with both vision-language tiers failed but the
classifier succeeding, the final diagnosis is the ensemble of the
heuristic fallback result with the classifier result — the heuristic
path contributed to a run in which a model backend succeeded, combined
by the ensemble rule. -/
theorem C4_counterexample :
    (complete_analysis disabledClipEnv renvEx venvEx (some ddEx) imgEx "chest" pEx "t").diagnosis.model =
      "Ensemble (Fallback Analysis + MONAI DenseNet121)" ∧
    (complete_analysis disabledClipEnv renvEx venvEx (some ddEx) imgEx "chest" pEx "t").diagnosis.individual_models =
      some (fallback_analysis imgEx "chest", ddEx) ∧
    (fallback_analysis imgEx "chest").model = "Fallback Analysis" := by
  refine ⟨?_, ?_, rfl⟩ <;>
  · norm_num [complete_analysis, disabledClipEnv, analyze_with_medclip, ensemble_predictions,
      ensemble_combine, fallback_analysis, imgEx, brightness, varianceQ, ddEx]
    try decide

/-- C4 (amended): the heuristic fallback result is produced exactly when
both vision-language tiers fail, regardless of the classifier: if the
classifier also failed it becomes the diagnosis verbatim, and if the
classifier succeeded the fallback result is combined with the classifier
result by the ensemble rule. -/
theorem C4_thm : ∀ (img : PImage) (x : String) (dd : BackendResult) (p : PatientInfo)
    (now : String) (renv : ReportEnv) (venv : VizEnv),
    (complete_analysis disabledClipEnv renv venv (some dd) img x p now).diagnosis =
      ensemble_combine (fallback_analysis img x) dd x ∧
    (complete_analysis disabledClipEnv renv venv none img x p now).diagnosis =
      (fallback_analysis img x).toDiagnosis := by
  intro img x dd p now renv venv
  constructor <;>
  · simp only [complete_analysis, disabledClipEnv, analyze_with_medclip, ensemble_predictions,
      Bool.false_eq_true, if_false, Option.getD_some]

/-- C5 (confirmed): report generation never surfaces a failure — with
the flag off or the credential absent or empty it returns the templated
fallback without attempting the network call; with the call attempted,
timeout, transport error, unexpected exception and non-200 status all
yield the templated fallback; and every outcome is either the fallback
report or a genuine DeepSeek report. -/
theorem C5_thm : ∀ (env : ReportEnv) (d : Diagnosis) (p : PatientInfo) (x now : String),
    (apiKeyTruthy env.apiKey = false ∨ env.useDeepseek = false →
      generate_medical_report env d p x now = (fallback_report d p x now, false)) ∧
    (∀ status content, env.netOutcome = NetOutcome.response status content → status ≠ 200 →
      apiKeyTruthy env.apiKey = true → env.useDeepseek = true →
      generate_medical_report env d p x now = (fallback_report d p x now, true)) ∧
    ((env.netOutcome = NetOutcome.timeout ∨ env.netOutcome = NetOutcome.transportError ∨
        env.netOutcome = NetOutcome.unexpected) →
      apiKeyTruthy env.apiKey = true → env.useDeepseek = true →
      generate_medical_report env d p x now = (fallback_report d p x now, true)) ∧
    ((generate_medical_report env d p x now).1.generated_by = "Fallback System" ∨
      (generate_medical_report env d p x now).1.generated_by = "DeepSeek 3.1") := by
  intro env d p x now
  refine ⟨?_, ?_, ?_, ?_⟩
  · intro h
    rcases h with h | h <;> simp [generate_medical_report, h]
  · intro status content hnet hstatus hkey hflag
    simp [generate_medical_report, hkey, hflag, hnet, hstatus]
  · intro h hkey hflag
    rcases h with h | h | h <;> simp [generate_medical_report, hkey, hflag, h]
  · unfold generate_medical_report
    by_cases hif : (!apiKeyTruthy env.apiKey || !env.useDeepseek) = true
    · simp [hif, fallback_report]
    · simp only [hif, if_false, Bool.false_eq_true]
      cases env.netOutcome with
      | timeout => simp [fallback_report]
      | transportError => simp [fallback_report]
      | unexpected => simp [fallback_report]
      | response status content =>
        by_cases hs : status = 200
        · cases content with
          | some text => simp [hs, fallback_report]
          | none => simp [hs, fallback_report]
        · simp [hs, fallback_report]

/-- C5 witness: with the credential absent the templated fallback is
returned and no network call is attempted. -/
theorem C5_witness :
    generate_medical_report renvEx dEx pEx "chest" "t" = (fallback_report dEx pEx "chest" "t", false) :=
  (C5_thm renvEx dEx pEx "chest" "t").1 (Or.inl rfl)

/-- C6 (confirmed): for every oracle state, preprocessed image
(including an all-constant one) and diagnosis, heatmap generation
returns either a result carrying a raster or the explicit absent-image
result — no exception escapes, by totality of the embedded function. -/
theorem C6_thm : ∀ (env : VizEnv) (img : PImage) (d : Diagnosis),
    (generate_heatmap env img d).heatmap.isSome = true ∨
    generate_heatmap env img d =
      { heatmap := none, description := "Mapa de calor não disponível" } := by
  intro env img d
  cases hb : generate_heatmap_body env img d with
  | error e =>
    right
    unfold generate_heatmap
    rw [hb]
  | ok hh =>
    left
    unfold generate_heatmap
    rw [hb]
    exact generate_heatmap_body_ok env img d hh hb

/-- C7 (code bug): with a loaded MedCLIP object lacking a `forward`
method and the next tier loaded and able to answer, the analysis still
returns a result labelled `MedCLIP 0.0.3` whose scores are the random
placeholder row — it does not fall through to the next tier as the
specification requires. -/
theorem C7_thm :
    (analyze_with_medclip randEnvEx imgEx "chest").model = "MedCLIP 0.0.3" ∧
    (analyze_with_medclip randEnvEx imgEx "chest").confidence_scores =
      (get_medical_conditions "chest").zip randEnvEx.randPredictions := by
  have heq := analyze_with_medclip_medclip_path randEnvEx imgEx "chest"
    randEnvEx.randPredictions rfl rfl (by decide)
  rw [heq]
  exact ⟨rfl, rfl⟩

/-- C8 (counterexample): two fallback reports with identical primary
diagnosis, overall confidence and timestamp but different region types
have different report texts, so the report is not a pure function of
primary diagnosis and confidence (plus timestamp) alone. -/
theorem C8_counterexample :
    (fallback_report dEx pEx "chest" "t").report ≠ (fallback_report dEx pEx "bone" "t").report := by
  unfold fallback_report
  simp only
  have h1 : dEx.overall_confidence = 3/4 := rfl
  have h2 : dEx.primary_diagnosis = "Pneumonia" := rfl
  rw [h1, h2, fmtPercent1_eval]
  decide

/-- C8 (amended): the fallback report is a pure function of the primary
diagnosis, the overall confidence and the region type (plus timestamp);
it always contains the findings, impression and recommendations headers
and the follow-up item; and two calls with an unset credential yield
reports identical except for their timestamps. -/
theorem C8_thm :
    (∀ (d d' : Diagnosis) (p p' : PatientInfo) (x now : String),
      d.primary_diagnosis = d'.primary_diagnosis →
      d.overall_confidence = d'.overall_confidence →
      fallback_report d p x now = fallback_report d' p' x now) ∧
    (∀ (d : Diagnosis) (p : PatientInfo) (x now : String),
      containsSub (fallback_report d p x now).report "ACHADOS" = true ∧
      containsSub (fallback_report d p x now).report "IMPRESSÃO" = true ∧
      containsSub (fallback_report d p x now).report "RECOMENDAÇÕES" = true ∧
      containsSub (fallback_report d p x now).report "Acompanhamento" = true) ∧
    (∀ (net : NetOutcome) (flag : Bool) (d : Diagnosis) (p p' : PatientInfo) (x now₁ now₂ : String),
      (generate_medical_report ⟨none, flag, net⟩ d p x now₁).1.report =
        (generate_medical_report ⟨none, flag, net⟩ d p' x now₂).1.report ∧
      (generate_medical_report ⟨none, flag, net⟩ d p x now₁).1.generated_by =
        (generate_medical_report ⟨none, flag, net⟩ d p' x now₂).1.generated_by ∧
      (generate_medical_report ⟨none, flag, net⟩ d p x now₁).1.timestamp = now₁ ∧
      (generate_medical_report ⟨none, flag, net⟩ d p' x now₂).1.timestamp = now₂) := by
  refine ⟨?_, ?_, ?_⟩
  · intro d d' p p' x now h1 h2
    unfold fallback_report
    rw [h1, h2]
  · intro d p x now
    exact reportText_sections _ _ _
  · intro net flag d p p' x now₁ now₂
    simp [generate_medical_report, apiKeyTruthy, fallback_report]

/-- C8 witness: the purity component instantiated on concrete inputs
with distinct patient metadata. -/
theorem C8_witness :
    fallback_report dEx pEx "chest" "t" = fallback_report dEx {} "chest" "t" :=
  C8_thm.1 dEx dEx pEx {} "chest" "t" rfl rfl

/-- C9 (confirmed): every region-type string other than the four known
keys resolves to exactly the chest ConditionList, unchanged in content
and order. -/
theorem C9_thm : ∀ t : String, t ≠ "chest" → t ≠ "bone" → t ≠ "dental" → t ≠ "spine" →
    get_medical_conditions t = get_medical_conditions "chest" ∧
    get_medical_conditions t =
      ["Normal", "Pneumonia", "Pneumothorax", "Cardiomegaly",
       "Atelectasis", "Pleural Effusion", "Consolidation",
       "Pulmonary Edema", "Tuberculosis", "Lung Mass"] := by
  intro t h1 h2 h3 h4
  unfold get_medical_conditions
  simp [h1, h2, h3, h4]

/-- C9 witness: the default applied to the literal `unknown_region`. -/
theorem C9_witness :
    get_medical_conditions "unknown_region" = get_medical_conditions "chest" :=
  (C9_thm "unknown_region" (by decide) (by decide) (by decide) (by decide)).1

/-- C10 (confirmed): in every assembled analysis result the reliability
label is `High` exactly when the diagnosis confidence exceeds 0.8 and is
otherwise `Medium` (no third value), and `aiProvider` and `framework`
both equal the diagnosis model label. -/
theorem C10_thm : ∀ (cenv : ClipEnv) (renv : ReportEnv) (venv : VizEnv)
    (dres : Option BackendResult) (img : PImage) (x : String) (p : PatientInfo) (now : String),
    ((complete_analysis cenv renv venv dres img x p now).analysis_reliability = "High" ↔
      (complete_analysis cenv renv venv dres img x p now).diagnosis.overall_confidence > 8/10) ∧
    ((complete_analysis cenv renv venv dres img x p now).analysis_reliability = "High" ∨
      (complete_analysis cenv renv venv dres img x p now).analysis_reliability = "Medium") ∧
    (complete_analysis cenv renv venv dres img x p now).aiProvider =
      (complete_analysis cenv renv venv dres img x p now).diagnosis.model ∧
    (complete_analysis cenv renv venv dres img x p now).framework =
      (complete_analysis cenv renv venv dres img x p now).diagnosis.model := by
  intro cenv renv venv dres img x p now
  unfold complete_analysis
  simp only
  refine ⟨?_, ?_, ?_, ?_⟩
  · split_ifs with h
    · simp [h]
    · simp [h]
  · split_ifs with h
    · left; rfl
    · right; rfl
  · trivial
  · trivial
